import Mathlib

/-!
Verification of the turn-orchestration core of the chess-agents repository
(`src/chess_agents.py`, entry point `src/main.py`).

The orchestration core is embedded shallowly:

* `ChessPosition`, `ChessMove`, `NoValidMove` mirror the pydantic models of
  `src/chess_agents.py` (lines 20-40).
* `validate_move` mirrors the result validator (lines 106-118); raising
  `ModelRetry` is embedded as `Except.error` carrying the diagnostic string.
* The rules engine (python-chess) is an external collaborator of the core; the
  orchestrator only consumes the opaque capabilities listed in the spec
  (legal actions, flags, counters, push).  It is embedded as a structure of
  functions `Engine Pos` over an opaque position type, exactly the surface that
  `ChessGame` touches.
* The agent runtime (pydantic-ai) is likewise external; its validator-driven
  retry loop and request ceiling are embedded in `agent_run`, with the agent's
  successive candidate outputs supplied as a function of the attempt index.
* `ChessGame`'s mutable attributes (`board`, `move_history`, `usage`,
  `last_move_reasoning`) become the record `GameState`, and its methods
  `get_current_position`, `play_one_move`, `play_game`, `get_game_result`
  become state-passing functions.
-/

/-- `ChessPosition` (src/chess_agents.py lines 20-31): the position snapshot
handed to the decision agents.  `active_color` keeps the source's literal
strings "white" / "black". -/
structure ChessPosition where
  fen : String
  last_move : Option String
  legal_moves : List String
  is_check : Bool
  is_checkmate : Bool
  is_stalemate : Bool
  is_game_over : Bool
  half_move_clock : Nat
  fullmove_number : Nat
  active_color : String
deriving Repr, DecidableEq

/-- `ChessMove` (src/chess_agents.py lines 33-36): a move with its rationale. -/
structure ChessMove where
  move_uci : String
  reasoning : String
deriving Repr, DecidableEq

/-- `NoValidMove` (src/chess_agents.py lines 38-40): the abstention variant. -/
structure NoValidMove where
  reason : String
deriving Repr, DecidableEq

/-- The union `ChessMove | NoValidMove` produced by a decision agent. -/
inductive AgentResult where
  | move (m : ChessMove)
  | noMove (n : NoValidMove)
deriving Repr, DecidableEq

/-- `validate_move` (src/chess_agents.py lines 106-118): an abstention is
returned unchanged; a move is returned iff its UCI string is a member of the
snapshot's `legal_moves`, otherwise `ModelRetry` is raised with a diagnostic
interpolating the move and the legal list (embedded as `Except.error`). -/
def validate_move (deps : ChessPosition) (result : AgentResult) :
    Except String AgentResult :=
  match result with
  | .noMove n => .ok (.noMove n)
  | .move m =>
      if m.move_uci ∈ deps.legal_moves then .ok (.move m)
      else .error ("Move " ++ m.move_uci ++ " is not in the list of legal moves: "
        ++ toString deps.legal_moves)

/-- Modelled from the spec: the agent runtime's validator-driven retry loop and
usage ceiling (pydantic-ai, external to src/; spec section 4.3 and 4.4).  Each
attempt is one request: it is checked against the request ceiling before it is
made, increments the usage counter, and its result is passed to `validate_move`;
a rejection re-invokes the agent (next attempt index) while retries remain;
exhausting the retries raises, as does reaching the usage ceiling.  The raised
condition is embedded as `Except.error` with the runtime's message. -/
def agent_run_from (deps : ChessPosition) (cand : Nat → AgentResult)
    (retries request_limit : Nat) :
    Nat → Nat → Nat → Except String AgentResult × Nat
  | 0, attempt, usage =>
    if request_limit ≤ usage then
      (.error ("The next request would exceed the request_limit of "
        ++ toString request_limit), usage)
    else
      match validate_move deps (cand attempt) with
      | .ok r => (.ok r, usage + 1)
      | .error _ => (.error ("Exceeded maximum retries (" ++ toString retries
          ++ ") for result validation"), usage + 1)
  | n + 1, attempt, usage =>
    if request_limit ≤ usage then
      (.error ("The next request would exceed the request_limit of "
        ++ toString request_limit), usage)
    else
      match validate_move deps (cand attempt) with
      | .ok r => (.ok r, usage + 1)
      | .error _ =>
          agent_run_from deps cand retries request_limit n (attempt + 1) (usage + 1)

/-- Modelled from the spec: `Agent.run` as consumed by `play_one_move`
(src/chess_agents.py lines 177-182), starting with the full retry budget at
attempt 0 and the game's current usage counter. -/
def agent_run (deps : ChessPosition) (cand : Nat → AgentResult)
    (retries request_limit usage : Nat) : Except String AgentResult × Nat :=
  agent_run_from deps cand retries request_limit retries 0 usage

/-- The rules-engine capabilities consumed by `ChessGame` (python-chess,
an external collaborator; spec section 6): initial position, serialization,
legal actions, flags, counters, active color, and applying an action.
`turn` is `true` for white, as `chess.WHITE = True`. -/
structure Engine (Pos : Type) where
  init : Pos
  fen : Pos → String
  legal_moves : Pos → List String
  is_check : Pos → Bool
  is_checkmate : Pos → Bool
  is_stalemate : Pos → Bool
  is_game_over : Pos → Bool
  is_insufficient_material : Pos → Bool
  is_fifty_moves : Pos → Bool
  is_repetition : Pos → Bool
  halfmove_clock : Pos → Nat
  fullmove_number : Pos → Nat
  turn : Pos → Bool
  push : Pos → String → Pos

/-- The mutable attributes of `ChessGame` (src/chess_agents.py lines 122-128).
The `usage_limits` attribute is the constant `request_limit=100` and the UI
callback is out of scope. -/
structure GameState (Pos : Type) where
  board : Pos
  move_history : List String
  usage : Nat
  last_move_reasoning : String
deriving Repr, DecidableEq

/-- `ChessGame.__init__` (src/chess_agents.py lines 122-128): fresh board,
empty history, zero usage. -/
def initState {Pos : Type} (E : Engine Pos) : GameState Pos :=
  { board := E.init, move_history := [], usage := 0, last_move_reasoning := "" }

/-- `ChessGame.get_current_position` (src/chess_agents.py lines 130-143). -/
def get_current_position {Pos : Type} (E : Engine Pos) (st : GameState Pos) :
    ChessPosition :=
  { fen := E.fen st.board
    last_move := st.move_history.getLast?
    legal_moves := E.legal_moves st.board
    is_check := E.is_check st.board
    is_checkmate := E.is_checkmate st.board
    is_stalemate := E.is_stalemate st.board
    is_game_over := E.is_game_over st.board
    half_move_clock := E.halfmove_clock st.board
    fullmove_number := E.fullmove_number st.board
    active_color := if E.turn st.board then "white" else "black" }

/-- `ChessGame.play_one_move` (src/chess_agents.py lines 145-215).  The agent
bound to the active color is embedded as `agent position attempt`; the source's
`retries=2` (agent construction, lines 58/83) and `request_limit=100`
(line 126) are the concrete budgets.  Any exception escaping `Agent.run` is
caught and converted to a `NoValidMove` whose reason prefixes the exception
text with the error banner (lines 211-215). -/
def play_one_move {Pos : Type} (E : Engine Pos)
    (agent : ChessPosition → Nat → AgentResult) (st : GameState Pos) :
    AgentResult × String × GameState Pos :=
  let position := get_current_position E st
  if position.is_game_over then
    (.noMove { reason := "Game is already over" }, "Game Over", st)
  else
    let agent_name := if position.active_color = "white" then "White" else "Black"
    match agent_run position (agent position) 2 100 st.usage with
    | (.ok (.move m), u) =>
        (.move m, agent_name ++ " played " ++ m.move_uci,
          { st with
            board := E.push st.board m.move_uci
            move_history := st.move_history ++ [m.move_uci]
            usage := u
            last_move_reasoning := m.reasoning })
    | (.ok (.noMove n), u) =>
        (.noMove n, agent_name ++ " could not make a move: " ++ n.reason,
          { st with usage := u })
    | (.error e, u) =>
        (.noMove { reason := "Error during " ++ agent_name ++ "\x27s move: " ++ e },
          "Error during " ++ agent_name ++ "\x27s move: " ++ e,
          { st with usage := u })

/-- `ChessGame.get_game_result` (src/chess_agents.py lines 247-260). -/
def get_game_result {Pos : Type} (E : Engine Pos) (b : Pos) : String :=
  if E.is_checkmate b then (if E.turn b then "0-1" else "1-0")
  else if E.is_stalemate b then "1/2-1/2 (Stalemate)"
  else if E.is_insufficient_material b then "1/2-1/2 (Insufficient material)"
  else if E.is_fifty_moves b then "1/2-1/2 (Fifty-move rule)"
  else if E.is_repetition b then "1/2-1/2 (Repetition)"
  else "Unknown result"

/-- One entry of the game record built by `play_game`
(src/chess_agents.py lines 225 and 232-238). -/
inductive RecordEntry where
  | turn (move_number : Nat) (move : Option String) (reasoning : Option String)
      (position : ChessPosition) (message : String)
  | game_over (result : String)
deriving Repr, DecidableEq

/-- Whether a record entry is the terminal game-over entry. -/
def RecordEntry.isGameOverEntry : RecordEntry → Bool
  | .game_over _ => true
  | .turn _ _ _ _ _ => false

/-- The `move` field of a per-turn record entry, if any. -/
def RecordEntry.move? : RecordEntry → Option String
  | .turn _ mv _ _ _ => mv
  | .game_over _ => none

/-- The `message` field of a per-turn record entry, if any. -/
def RecordEntry.message? : RecordEntry → Option String
  | .turn _ _ _ _ msg => some msg
  | .game_over _ => none

/-- The `position` field of a per-turn record entry, if any. -/
def RecordEntry.position? : RecordEntry → Option ChessPosition
  | .turn _ _ _ pos _ => some pos
  | .game_over _ => none

/-- The loop body of `ChessGame.play_game` (src/chess_agents.py lines 219-245):
`fuel` is the number of remaining iterations of `for move_num in
range(max_moves)` and `move_num` the current index.  When the board is game
over the final result entry is appended and the loop breaks; otherwise one
move is played and a per-turn entry is appended. -/
def play_game_aux {Pos : Type} (E : Engine Pos)
    (agent : ChessPosition → Nat → AgentResult) :
    Nat → Nat → GameState Pos → List RecordEntry × GameState Pos
  | 0, _, st => ([], st)
  | fuel + 1, move_num, st =>
    if E.is_game_over st.board then
      ([.game_over (get_game_result E st.board)], st)
    else
      let r := play_one_move E agent st
      let position := get_current_position E r.2.2
      let entry : RecordEntry := .turn (move_num + 1)
        (match r.1 with | .move m => some m.move_uci | .noMove _ => none)
        (match r.1 with | .move m => some m.reasoning | .noMove _ => none)
        position r.2.1
      let rest := play_game_aux E agent fuel (move_num + 1) r.2.2
      (entry :: rest.1, rest.2)

/-- `ChessGame.play_game(max_moves)` (src/chess_agents.py lines 217-245),
returning the game record together with the game object's state after the
call. -/
def play_game {Pos : Type} (E : Engine Pos)
    (agent : ChessPosition → Nat → AgentResult) (max_moves : Nat)
    (st : GameState Pos) : List RecordEntry × GameState Pos :=
  play_game_aux E agent max_moves 0 st

/-- Replaying a list of actions from the engine's initial position
(spec section 8, round-trip property). -/
def replay {Pos : Type} (E : Engine Pos) (moves : List String) : Pos :=
  moves.foldl E.push E.init

/-! ## Concrete engines used to instantiate the theorems -/

/-- A position carrying explicit result flags, used to exercise
`get_game_result` on every flag combination. -/
structure FlagPos where
  checkmate : Bool
  stalemate : Bool
  insufficient : Bool
  fifty : Bool
  repetition : Bool
  whiteTurn : Bool
deriving Repr, DecidableEq

/-- An engine whose predicates read the explicit flags of a `FlagPos`. -/
def flagEngine : Engine FlagPos :=
  { init := ⟨false, false, false, false, false, true⟩
    fen := fun _ => ""
    legal_moves := fun _ => []
    is_check := fun p => p.checkmate
    is_checkmate := fun p => p.checkmate
    is_stalemate := fun p => p.stalemate
    is_game_over := fun p => p.checkmate || p.stalemate
    is_insufficient_material := fun p => p.insufficient
    is_fifty_moves := fun p => p.fifty
    is_repetition := fun p => p.repetition
    halfmove_clock := fun _ => 0
    fullmove_number := fun _ => 1
    turn := fun p => p.whiteTurn
    push := fun p _ => p }

/-- A minimal engine whose position is the list of moves played so far: the
same constant legal list is offered until `overAfter` moves have been played,
after which the game is over.  The side to move alternates with the parity of
the number of moves played. -/
def listEngine (legal : List String) (overAfter : Nat) : Engine (List String) :=
  { init := []
    fen := fun _ => ""
    legal_moves := fun p => if overAfter ≤ p.length then [] else legal
    is_check := fun _ => false
    is_checkmate := fun _ => false
    is_stalemate := fun _ => false
    is_game_over := fun p => overAfter ≤ p.length
    is_insufficient_material := fun _ => false
    is_fifty_moves := fun _ => false
    is_repetition := fun _ => false
    halfmove_clock := fun p => p.length
    fullmove_number := fun p => p.length / 2 + 1
    turn := fun p => p.length % 2 == 0
    push := fun p m => p ++ [m] }

/-- An agent that always proposes the same move. -/
def constAgent (uci : String) : ChessPosition → Nat → AgentResult :=
  fun _ _ => .move { move_uci := uci, reasoning := "because" }

/-- A snapshot with a one-element legal list, used to instantiate the
validator theorems. -/
def depsOneLegal : ChessPosition :=
  { fen := "", last_move := none, legal_moves := ["e2e4"], is_check := false
    is_checkmate := false, is_stalemate := false, is_game_over := false
    half_move_clock := 0, fullmove_number := 1, active_color := "white" }

/-! ## Validator (claim C3) -/

/-- Claim C3: `validate_move`, given an action and the snapshot's legal list,
accepts the action iff its UCI string is an exact member of that list, and on
rejection raises a retry condition whose diagnostic interpolates the attempted
notation and the full legal set; an abstention is always returned unchanged,
never triggering a retry. -/
theorem validate_move_contract :
    (∀ deps n, validate_move deps (.noMove n) = .ok (.noMove n)) ∧
    (∀ deps m, validate_move deps (.move m) = .ok (.move m) ↔
      m.move_uci ∈ deps.legal_moves) ∧
    (∀ deps m, m.move_uci ∉ deps.legal_moves →
      validate_move deps (.move m) =
        .error ("Move " ++ m.move_uci ++ " is not in the list of legal moves: "
          ++ toString deps.legal_moves)) := by
  refine ⟨fun deps n => rfl, fun deps m => ?_, fun deps m h => ?_⟩
  · constructor
    · intro h
      by_contra hmem
      simp [validate_move, hmem] at h
    · intro hmem
      simp [validate_move, hmem]
  · simp [validate_move, h]

/-- Witness for C3: with the legal list `["e2e4"]`, the member "e2e4" is
accepted, the non-member "e2e5" is rejected with the interpolated diagnostic,
and an abstention passes through. -/
theorem validate_move_contract_witness :
    validate_move depsOneLegal (.move { move_uci := "e2e4", reasoning := "r" }) =
      .ok (.move { move_uci := "e2e4", reasoning := "r" }) ∧
    validate_move depsOneLegal (.move { move_uci := "e2e5", reasoning := "r" }) =
      .error ("Move " ++ "e2e5" ++ " is not in the list of legal moves: "
        ++ toString ["e2e4"]) ∧
    validate_move depsOneLegal (.noMove { reason := "stuck" }) =
      .ok (.noMove { reason := "stuck" }) :=
  ⟨(validate_move_contract.2.1 depsOneLegal _).mpr (by decide),
   validate_move_contract.2.2 depsOneLegal _ (by decide),
   validate_move_contract.1 depsOneLegal _⟩

/-! ## Result classification (claims C6 and C10) -/

/-- Claim C6: `get_game_result` classifies in the priority order
checkmate > stalemate > insufficient material > fifty moves > repetition >
unknown; on checkmate the winner is the side not to move ("1-0" exactly when
black is to move), and a position flagged both checkmate and stalemate
classifies as checkmate. -/
theorem get_game_result_priority {Pos : Type} (E : Engine Pos) (b : Pos) :
    (E.is_checkmate b = true →
      get_game_result E b = (if E.turn b then "0-1" else "1-0") ∧
      (get_game_result E b = "1-0" ↔ E.turn b = false)) ∧
    (E.is_checkmate b = true → E.is_stalemate b = true →
      get_game_result E b = (if E.turn b then "0-1" else "1-0")) ∧
    (E.is_checkmate b = false → E.is_stalemate b = true →
      get_game_result E b = "1/2-1/2 (Stalemate)") ∧
    (E.is_checkmate b = false → E.is_stalemate b = false →
      E.is_insufficient_material b = true →
      get_game_result E b = "1/2-1/2 (Insufficient material)") ∧
    (E.is_checkmate b = false → E.is_stalemate b = false →
      E.is_insufficient_material b = false → E.is_fifty_moves b = true →
      get_game_result E b = "1/2-1/2 (Fifty-move rule)") ∧
    (E.is_checkmate b = false → E.is_stalemate b = false →
      E.is_insufficient_material b = false → E.is_fifty_moves b = false →
      E.is_repetition b = true →
      get_game_result E b = "1/2-1/2 (Repetition)") := by
  refine ⟨fun h1 => ⟨by simp [get_game_result, h1], ?_⟩,
    fun h1 _ => by simp [get_game_result, h1],
    fun h1 h2 => by simp [get_game_result, h1, h2],
    fun h1 h2 h3 => by simp [get_game_result, h1, h2, h3],
    fun h1 h2 h3 h4 => by simp [get_game_result, h1, h2, h3, h4],
    fun h1 h2 h3 h4 h5 => by simp [get_game_result, h1, h2, h3, h4, h5]⟩
  cases hturn : E.turn b <;> simp [get_game_result, h1, hturn]

/-- Witness for C6: a position flagged both checkmate and stalemate with black
to move classifies as "1-0" (white wins, the side not to move). -/
theorem get_game_result_priority_witness :
    get_game_result flagEngine
      { checkmate := true, stalemate := true, insufficient := false
        fifty := false, repetition := false, whiteTurn := false } = "1-0" := by
  have h := (get_game_result_priority flagEngine
    { checkmate := true, stalemate := true, insufficient := false
      fifty := false, repetition := false, whiteTurn := false }).2.1 rfl rfl
  simpa using h

/-- Claim C10: `get_game_result` is total and, on any position where none of
the five terminal conditions holds (as when `play_game` stops because
`max_moves` is reached mid-game), returns the string "Unknown result" rather
than failing. -/
theorem get_game_result_unknown {Pos : Type} (E : Engine Pos) (b : Pos)
    (h1 : E.is_checkmate b = false) (h2 : E.is_stalemate b = false)
    (h3 : E.is_insufficient_material b = false)
    (h4 : E.is_fifty_moves b = false) (h5 : E.is_repetition b = false) :
    get_game_result E b = "Unknown result" := by
  simp [get_game_result, h1, h2, h3, h4, h5]

/-- Witness for C10: on a position with all five flags false (not game over),
the result is "Unknown result". -/
theorem get_game_result_unknown_witness :
    get_game_result flagEngine flagEngine.init = "Unknown result" :=
  get_game_result_unknown flagEngine flagEngine.init rfl rfl rfl rfl rfl

/-! ## Characterization lemmas for the retry loop and `play_one_move` -/

/-- Unfolding `agent_run_from` when the usage ceiling is reached. -/
lemma agent_run_from_limit (deps : ChessPosition) (cand : Nat → AgentResult)
    (retries request_limit n attempt usage : Nat) (hu : request_limit ≤ usage) :
    agent_run_from deps cand retries request_limit n attempt usage =
      (.error ("The next request would exceed the request_limit of "
        ++ toString request_limit), usage) := by
  cases n <;> simp [agent_run_from, hu]

/-- Unfolding `agent_run_from` when the current attempt validates. -/
lemma agent_run_from_ok (deps : ChessPosition) (cand : Nat → AgentResult)
    (retries request_limit n attempt usage : Nat)
    (hu : ¬ request_limit ≤ usage) (r : AgentResult)
    (hok : validate_move deps (cand attempt) = .ok r) :
    agent_run_from deps cand retries request_limit n attempt usage =
      (.ok r, usage + 1) := by
  cases n <;> simp [agent_run_from, hu, hok]

/-- Unfolding `agent_run_from` when the current attempt is rejected and retries
remain. -/
lemma agent_run_from_step (deps : ChessPosition) (cand : Nat → AgentResult)
    (retries request_limit n attempt usage : Nat)
    (hu : ¬ request_limit ≤ usage) (e : String)
    (he : validate_move deps (cand attempt) = .error e) :
    agent_run_from deps cand retries request_limit (n + 1) attempt usage =
      agent_run_from deps cand retries request_limit n (attempt + 1) (usage + 1) := by
  simp [agent_run_from, hu, he]

/-- Unfolding `agent_run_from` when the current attempt is rejected and the
retry budget is exhausted. -/
lemma agent_run_from_exhaust (deps : ChessPosition) (cand : Nat → AgentResult)
    (retries request_limit attempt usage : Nat)
    (hu : ¬ request_limit ≤ usage) (e : String)
    (he : validate_move deps (cand attempt) = .error e) :
    agent_run_from deps cand retries request_limit 0 attempt usage =
      (.error ("Exceeded maximum retries (" ++ toString retries
        ++ ") for result validation"), usage + 1) := by
  simp [agent_run_from, hu, he]

/-- The snapshot's game-over flag is the engine's. -/
lemma get_current_position_is_game_over {Pos : Type} (E : Engine Pos)
    (st : GameState Pos) :
    (get_current_position E st).is_game_over = E.is_game_over st.board := rfl

/-- The snapshot's active color is derived from the engine's turn. -/
lemma get_current_position_active_color {Pos : Type} (E : Engine Pos)
    (st : GameState Pos) :
    (get_current_position E st).active_color =
      (if E.turn st.board then "white" else "black") := rfl

/-- `play_one_move` on a game-over board. -/
lemma play_one_move_over {Pos : Type} (E : Engine Pos)
    (agent : ChessPosition → Nat → AgentResult) (st : GameState Pos)
    (h : E.is_game_over st.board = true) :
    play_one_move E agent st =
      (.noMove { reason := "Game is already over" }, "Game Over", st) := by
  simp [play_one_move, get_current_position_is_game_over, h]

/-- `play_one_move` when the agent run produces an accepted move. -/
lemma play_one_move_commit {Pos : Type} (E : Engine Pos)
    (agent : ChessPosition → Nat → AgentResult) (st : GameState Pos)
    (m : ChessMove) (u : Nat)
    (hover : E.is_game_over st.board = false)
    (hrun : agent_run (get_current_position E st)
        (agent (get_current_position E st)) 2 100 st.usage = (.ok (.move m), u)) :
    play_one_move E agent st =
      (.move m,
       (if E.turn st.board then "White" else "Black") ++ " played " ++ m.move_uci,
       { st with
         board := E.push st.board m.move_uci
         move_history := st.move_history ++ [m.move_uci]
         usage := u
         last_move_reasoning := m.reasoning }) := by
  simp only [play_one_move, get_current_position_is_game_over, hover,
    get_current_position_active_color, Bool.false_eq_true, if_false, hrun]
  rcases Bool.eq_false_or_eq_true (E.turn st.board) with hturn | hturn <;> simp [hturn]

/-- `play_one_move` when the agent run produces an abstention. -/
lemma play_one_move_abstain {Pos : Type} (E : Engine Pos)
    (agent : ChessPosition → Nat → AgentResult) (st : GameState Pos)
    (n : NoValidMove) (u : Nat)
    (hover : E.is_game_over st.board = false)
    (hrun : agent_run (get_current_position E st)
        (agent (get_current_position E st)) 2 100 st.usage = (.ok (.noMove n), u)) :
    play_one_move E agent st =
      (.noMove n,
       (if E.turn st.board then "White" else "Black")
         ++ " could not make a move: " ++ n.reason,
       { st with usage := u }) := by
  simp only [play_one_move, get_current_position_is_game_over, hover,
    get_current_position_active_color, Bool.false_eq_true, if_false, hrun]
  rcases Bool.eq_false_or_eq_true (E.turn st.board) with hturn | hturn <;> simp [hturn]

/-- `play_one_move` when the agent run raises: the exception is converted to a
`NoValidMove` whose reason carries the error banner. -/
lemma play_one_move_error {Pos : Type} (E : Engine Pos)
    (agent : ChessPosition → Nat → AgentResult) (st : GameState Pos)
    (e : String) (u : Nat)
    (hover : E.is_game_over st.board = false)
    (hrun : agent_run (get_current_position E st)
        (agent (get_current_position E st)) 2 100 st.usage = (.error e, u)) :
    play_one_move E agent st =
      (.noMove { reason := "Error during "
          ++ (if E.turn st.board then "White" else "Black") ++ "\x27s move: " ++ e },
       "Error during "
          ++ (if E.turn st.board then "White" else "Black") ++ "\x27s move: " ++ e,
       { st with usage := u }) := by
  simp only [play_one_move, get_current_position_is_game_over, hover,
    get_current_position_active_color, Bool.false_eq_true, if_false, hrun]
  rcases Bool.eq_false_or_eq_true (E.turn st.board) with hturn | hturn <;> simp [hturn]

/-! ## Game-over precondition (claim C5) -/

/-- Claim C5 (amended): when the current position's game-over flag is true at
entry, `play_one_move` returns an abstention with reason "Game is already
over" and message "Game Over", changes no state, and its outcome is the same
for every decision agent (no agent is consulted). -/
theorem play_one_move_game_already_over {Pos : Type} (E : Engine Pos)
    (agent : ChessPosition → Nat → AgentResult) (st : GameState Pos)
    (h : E.is_game_over st.board = true) :
    play_one_move E agent st =
      (.noMove { reason := "Game is already over" }, "Game Over", st) :=
  play_one_move_over E agent st h

/-- Counterexample for C5 as stated: on a checkmate board, the abstention's
reason is the string "Game is already over", which differs from the claimed
reason "game already over"; the state is returned unchanged. -/
theorem play_one_move_game_already_over_counterexample :
    (play_one_move flagEngine (constAgent "e2e4")
        { board := { checkmate := true, stalemate := false, insufficient := false
                     fifty := false, repetition := false, whiteTurn := true }
          move_history := [], usage := 0, last_move_reasoning := "" }) =
      (.noMove { reason := "Game is already over" }, "Game Over",
        { board := { checkmate := true, stalemate := false, insufficient := false
                     fifty := false, repetition := false, whiteTurn := true }
          move_history := [], usage := 0, last_move_reasoning := "" }) ∧
    "Game is already over" ≠ "game already over" := by
  exact ⟨by decide, by decide⟩

/-- Witness for C5: a concrete checkmate board, with an agent that would play
a move if consulted, still yields the unchanged-state abstention. -/
theorem play_one_move_game_already_over_witness :
    play_one_move flagEngine (constAgent "d2d4")
        { board := { checkmate := false, stalemate := true, insufficient := false
                     fifty := false, repetition := false, whiteTurn := false }
          move_history := ["e2e4"], usage := 7, last_move_reasoning := "x" } =
      (.noMove { reason := "Game is already over" }, "Game Over",
        { board := { checkmate := false, stalemate := true, insufficient := false
                     fifty := false, repetition := false, whiteTurn := false }
          move_history := ["e2e4"], usage := 7, last_move_reasoning := "x" }) :=
  play_one_move_game_already_over flagEngine (constAgent "d2d4") _ (by decide)

/-! ## Active-side alternation (claim C4) -/

/-- Claim C4: if a call to `play_one_move` commits an accepted action, exactly
one move is pushed onto the board and appended to the history, and the board's
turn flips (the engine's push alternating the side to move); if the turn ends
in an abstention, neither the board position nor the move history changes, so
the side to move is unchanged. -/
theorem play_one_move_alternation {Pos : Type} (E : Engine Pos)
    (agent : ChessPosition → Nat → AgentResult) (st : GameState Pos)
    (hflip : ∀ p m, E.turn (E.push p m) = !E.turn p) :
    (∀ m, (play_one_move E agent st).1 = .move m →
      (play_one_move E agent st).2.2.board = E.push st.board m.move_uci ∧
      (play_one_move E agent st).2.2.move_history
        = st.move_history ++ [m.move_uci] ∧
      E.turn (play_one_move E agent st).2.2.board = !E.turn st.board) ∧
    (∀ n, (play_one_move E agent st).1 = .noMove n →
      (play_one_move E agent st).2.2.board = st.board ∧
      (play_one_move E agent st).2.2.move_history = st.move_history) := by
  rcases Bool.eq_false_or_eq_true (E.is_game_over st.board) with hover | hover
  · have h := play_one_move_over E agent st hover
    constructor
    · intro m hm
      rw [h] at hm
      exact absurd hm (by simp)
    · intro n _
      rw [h]
      exact ⟨rfl, rfl⟩
  · rcases hrun : agent_run (get_current_position E st)
        (agent (get_current_position E st)) 2 100 st.usage with ⟨res, u⟩
    match res with
    | .ok (.move m') =>
      have h := play_one_move_commit E agent st m' u hover hrun
      constructor
      · intro m hm
        rw [h] at hm ⊢
        cases hm
        exact ⟨rfl, rfl, hflip st.board m'.move_uci⟩
      · intro n hn
        rw [h] at hn
        exact absurd hn (by simp)
    | .ok (.noMove n') =>
      have h := play_one_move_abstain E agent st n' u hover hrun
      constructor
      · intro m hm
        rw [h] at hm
        exact absurd hm (by simp)
      · intro n _
        rw [h]
        exact ⟨rfl, rfl⟩
    | .error e =>
      have h := play_one_move_error E agent st e u hover hrun
      constructor
      · intro m hm
        rw [h] at hm
        exact absurd hm (by simp)
      · intro n _
        rw [h]
        exact ⟨rfl, rfl⟩

/-- Witness for C4: on a concrete engine whose side to move is the parity of
the number of moves played, committing the legal move "a2a3" pushes exactly
that move, extends the history by it, and flips the turn from white to black;
the theorem is applied with the flip hypothesis discharged. -/
theorem play_one_move_alternation_witness :
    (play_one_move (listEngine ["a2a3"] 1000) (constAgent "a2a3")
        (initState (listEngine ["a2a3"] 1000))).2.2.move_history = ["a2a3"] ∧
    (listEngine ["a2a3"] 1000).turn
      (play_one_move (listEngine ["a2a3"] 1000) (constAgent "a2a3")
        (initState (listEngine ["a2a3"] 1000))).2.2.board = false := by
  have hflip : ∀ (p : List String) (m : String),
      (listEngine ["a2a3"] 1000).turn ((listEngine ["a2a3"] 1000).push p m)
        = !(listEngine ["a2a3"] 1000).turn p := by
    intro p m
    simp only [listEngine, List.length_append, List.length_cons, List.length_nil]
    rcases Nat.mod_two_eq_zero_or_one p.length with h | h
    · have h1 : (p.length + 1) % 2 = 1 := by omega
      simp [h, h1]
    · have h1 : (p.length + 1) % 2 = 0 := by omega
      simp [h, h1]
  have h := (play_one_move_alternation (listEngine ["a2a3"] 1000)
    (constAgent "a2a3") (initState (listEngine ["a2a3"] 1000)) hflip).1
    { move_uci := "a2a3", reasoning := "because" } (by decide)
  refine ⟨by rw [h.2.1]; rfl, ?_⟩
  rw [h.2.2]
  decide

/-! ## Retry exhaustion (claim C1) -/

/-- Claim C1 (amended): when the agent's candidates at all three attempts
(initial plus the two configured retries) are actions rejected by the
validator, `play_one_move` returns an abstention whose reason is the error
banner "Error during {side}\x27s move: " followed by the retry-exhaustion
exception text — not the literal string "exceeded retry limit" — and the
board and move history are unchanged while the usage counter has grown by the
three attempts. -/
theorem play_one_move_retry_exhaustion {Pos : Type} (E : Engine Pos)
    (agent : ChessPosition → Nat → AgentResult) (st : GameState Pos)
    (hover : E.is_game_over st.board = false)
    (husage : st.usage + 3 ≤ 100)
    (h0 : ∃ m, agent (get_current_position E st) 0 = .move m ∧
      m.move_uci ∉ (get_current_position E st).legal_moves)
    (h1 : ∃ m, agent (get_current_position E st) 1 = .move m ∧
      m.move_uci ∉ (get_current_position E st).legal_moves)
    (h2 : ∃ m, agent (get_current_position E st) 2 = .move m ∧
      m.move_uci ∉ (get_current_position E st).legal_moves) :
    play_one_move E agent st =
      (.noMove { reason := "Error during "
          ++ (if E.turn st.board then "White" else "Black")
          ++ "\x27s move: Exceeded maximum retries (2) for result validation" },
       "Error during " ++ (if E.turn st.board then "White" else "Black")
          ++ "\x27s move: Exceeded maximum retries (2) for result validation",
       { st with usage := st.usage + 3 }) := by
  obtain ⟨m0, hm0, hn0⟩ := h0
  obtain ⟨m1, hm1, hn1⟩ := h1
  obtain ⟨m2, hm2, hn2⟩ := h2
  have e0 : validate_move (get_current_position E st)
      (agent (get_current_position E st) 0) = .error ("Move " ++ m0.move_uci
        ++ " is not in the list of legal moves: "
        ++ toString (get_current_position E st).legal_moves) := by
    rw [hm0]; simp [validate_move, hn0]
  have e1 : validate_move (get_current_position E st)
      (agent (get_current_position E st) 1) = .error ("Move " ++ m1.move_uci
        ++ " is not in the list of legal moves: "
        ++ toString (get_current_position E st).legal_moves) := by
    rw [hm1]; simp [validate_move, hn1]
  have e2 : validate_move (get_current_position E st)
      (agent (get_current_position E st) 2) = .error ("Move " ++ m2.move_uci
        ++ " is not in the list of legal moves: "
        ++ toString (get_current_position E st).legal_moves) := by
    rw [hm2]; simp [validate_move, hn2]
  have hrun : agent_run (get_current_position E st)
      (agent (get_current_position E st)) 2 100 st.usage =
        (.error "Exceeded maximum retries (2) for result validation",
          st.usage + 3) := by
    unfold agent_run
    rw [agent_run_from_step (get_current_position E st)
        (agent (get_current_position E st)) 2 100 1 0 st.usage (by omega) _ e0,
      agent_run_from_step (get_current_position E st)
        (agent (get_current_position E st)) 2 100 0 1 (st.usage + 1)
        (by omega) _ e1,
      agent_run_from_exhaust (get_current_position E st)
        (agent (get_current_position E st)) 2 100 2 (st.usage + 1 + 1)
        (by omega) _ e2]
    have harith : st.usage + 1 + 1 + 1 = st.usage + 3 := by omega
    rw [harith]
    rfl
  have h := play_one_move_error E agent st
    "Exceeded maximum retries (2) for result validation" (st.usage + 3)
    hover hrun
  rw [h]
  simp only [String.append_assoc]
  rfl

/-- Counterexample for C1 as stated: an agent that always proposes the illegal
action "zzzz" exhausts the retry ceiling, and the resulting abstention's
reason is the error banner around the runtime's retry-exhaustion message,
which differs from the claimed specific string "exceeded retry limit". -/
theorem play_one_move_retry_exhaustion_counterexample :
    (play_one_move (listEngine ["a2a3"] 1000) (constAgent "zzzz")
        (initState (listEngine ["a2a3"] 1000))).1 =
      .noMove { reason :=
        "Error during White\x27s move: Exceeded maximum retries (2) for result validation" } ∧
    "Error during White\x27s move: Exceeded maximum retries (2) for result validation"
      ≠ "exceeded retry limit" := by
  exact ⟨by decide, by decide⟩

/-- Witness for C1 (amended): at the starting state of the concrete engine,
the always-"zzzz" agent is rejected on the initial attempt and the two
retries, yielding the banner-prefixed abstention with the board and history
unchanged and the usage counter at 3. -/
theorem play_one_move_retry_exhaustion_witness :
    play_one_move (listEngine ["a2a3"] 1000) (constAgent "zzzz")
        (initState (listEngine ["a2a3"] 1000)) =
      (.noMove { reason := "Error during "
          ++ (if (listEngine ["a2a3"] 1000).turn
                (initState (listEngine ["a2a3"] 1000)).board
              then "White" else "Black")
          ++ "\x27s move: Exceeded maximum retries (2) for result validation" },
       "Error during "
          ++ (if (listEngine ["a2a3"] 1000).turn
                (initState (listEngine ["a2a3"] 1000)).board
              then "White" else "Black")
          ++ "\x27s move: Exceeded maximum retries (2) for result validation",
       { initState (listEngine ["a2a3"] 1000) with
         usage := (initState (listEngine ["a2a3"] 1000)).usage + 3 }) :=
  play_one_move_retry_exhaustion (listEngine ["a2a3"] 1000) (constAgent "zzzz")
    (initState (listEngine ["a2a3"] 1000)) rfl (by decide)
    ⟨{ move_uci := "zzzz", reasoning := "because" }, rfl, by decide⟩
    ⟨{ move_uci := "zzzz", reasoning := "because" }, rfl, by decide⟩
    ⟨{ move_uci := "zzzz", reasoning := "because" }, rfl, by decide⟩

/-! ## Usage ceiling (claim C2) -/

/-- An engine whose game is never over, offering the same legal move forever. -/
def neverOverEngine : Engine (List String) :=
  { listEngine ["a2a3"] 1 with
    is_game_over := fun _ => false
    legal_moves := fun _ => ["a2a3"] }

/-- A mid-game state whose usage counter has reached the request ceiling. -/
def st100 : GameState (List String) :=
  { board := [], move_history := [], usage := 100, last_move_reasoning := "" }

/-- Claim C2 (amended): once the usage counter has reached the ceiling of 100,
each turn is converted to an abstention whose reason is the error banner
around the request-limit exception text — not the literal "usage limit
exceeded" — with the game state unchanged (in particular the counter never
exceeds the ceiling and no further request is made); and the `play_game` loop
has no aborted state: while the game is not over it keeps iterating to the
full `max_moves` bound regardless of the usage counter. -/
theorem play_one_move_usage_limit {Pos : Type} (E : Engine Pos)
    (agent : ChessPosition → Nat → AgentResult) :
    (∀ st : GameState Pos, E.is_game_over st.board = false → 100 ≤ st.usage →
      play_one_move E agent st =
        (.noMove { reason := "Error during "
            ++ (if E.turn st.board then "White" else "Black")
            ++ "\x27s move: The next request would exceed the request_limit of 100" },
         "Error during " ++ (if E.turn st.board then "White" else "Black")
            ++ "\x27s move: The next request would exceed the request_limit of 100",
         st)) ∧
    ((∀ p, E.is_game_over p = false) → ∀ fuel n st,
      (play_game_aux E agent fuel n st).1.length = fuel) := by
  constructor
  · intro st hover husage
    have hrun : agent_run (get_current_position E st)
        (agent (get_current_position E st)) 2 100 st.usage =
          (.error ("The next request would exceed the request_limit of "
            ++ toString 100), st.usage) := by
      unfold agent_run
      exact agent_run_from_limit _ _ 2 100 2 0 st.usage husage
    have h := play_one_move_error E agent st
      ("The next request would exceed the request_limit of " ++ toString 100)
      st.usage hover hrun
    rw [h]
    simp only [String.append_assoc]
    rfl
  · intro hall fuel n st
    induction fuel generalizing n st with
    | zero => simp [play_game_aux]
    | succ k ih => simp [play_game_aux, hall, ih]

/-- The record and final state of a 105-turn run in which every turn commits
the same legal move until the usage ceiling is reached at turn 101. -/
def usageRun : List RecordEntry × GameState (List String) :=
  play_game neverOverEngine (constAgent "a2a3") 105 (initState neverOverEngine)

set_option maxRecDepth 100000 in
/-- Counterexample for C2 as stated: in the 105-turn run the counter reaches
the ceiling of 100 after turn 100, yet turn 101's outcome message (the
abstention reason) is the error banner around the request-limit exception
text — not "usage limit exceeded" — and the game is not aborted: the loop
keeps iterating to the full bound of 105, producing further turn entries and
invoking the decision-agent wrapper again on each of them. -/
theorem play_game_usage_limit_counterexample :
    usageRun.2.usage = 100 ∧
    usageRun.1.length = 105 ∧
    (usageRun.1.get? 100).bind RecordEntry.message? =
      some "Error during White\x27s move: The next request would exceed the request_limit of 100" ∧
    "Error during White\x27s move: The next request would exceed the request_limit of 100"
      ≠ "usage limit exceeded" ∧
    usageRun.1.all (fun e => !e.isGameOverEntry) = true := by
  refine ⟨by decide, by decide, by decide, by decide, by decide⟩

/-- Witness for C2 (amended): at a state with the counter at the ceiling, the
turn degrades to the banner-prefixed abstention with the state unchanged, and
on a never-over board the loop runs for the full bound. -/
theorem play_one_move_usage_limit_witness :
    play_one_move neverOverEngine (constAgent "a2a3") st100 =
      (.noMove { reason := "Error during "
          ++ (if neverOverEngine.turn st100.board then "White" else "Black")
          ++ "\x27s move: The next request would exceed the request_limit of 100" },
       "Error during " ++ (if neverOverEngine.turn st100.board then "White" else "Black")
          ++ "\x27s move: The next request would exceed the request_limit of 100",
       st100) ∧
    (play_game_aux neverOverEngine (constAgent "a2a3") 3 0
      (initState neverOverEngine)).1.length = 3 :=
  ⟨(play_one_move_usage_limit neverOverEngine (constAgent "a2a3")).1 st100
      rfl (by decide),
   (play_one_move_usage_limit neverOverEngine (constAgent "a2a3")).2
      (fun _ => rfl) 3 0 (initState neverOverEngine)⟩

/-! ## Replay round-trip (claim C7) -/

/-- One turn preserves the replay invariant: the board always equals the
replay of the recorded move history from the initial position. -/
lemma play_one_move_replay_invariant {Pos : Type} (E : Engine Pos)
    (agent : ChessPosition → Nat → AgentResult) (st : GameState Pos)
    (h : st.board = replay E st.move_history) :
    (play_one_move E agent st).2.2.board =
      replay E (play_one_move E agent st).2.2.move_history := by
  rcases Bool.eq_false_or_eq_true (E.is_game_over st.board) with hover | hover
  · rw [play_one_move_over E agent st hover]
    exact h
  · rcases hrun : agent_run (get_current_position E st)
        (agent (get_current_position E st)) 2 100 st.usage with ⟨res, u⟩
    match res with
    | .ok (.move m) =>
      rw [play_one_move_commit E agent st m u hover hrun]
      simp [replay, List.foldl_append, h]
    | .ok (.noMove n) =>
      rw [play_one_move_abstain E agent st n u hover hrun]
      exact h
    | .error e =>
      rw [play_one_move_error E agent st e u hover hrun]
      exact h

/-- The loop of `play_game` preserves the replay invariant. -/
lemma play_game_aux_replay_invariant {Pos : Type} (E : Engine Pos)
    (agent : ChessPosition → Nat → AgentResult) :
    ∀ fuel n st, st.board = replay E st.move_history →
      (play_game_aux E agent fuel n st).2.board =
        replay E (play_game_aux E agent fuel n st).2.move_history := by
  intro fuel
  induction fuel with
  | zero =>
    intro n st h
    simpa [play_game_aux] using h
  | succ k ih =>
    intro n st h
    rcases Bool.eq_false_or_eq_true (E.is_game_over st.board) with hover | hover
    · simpa [play_game_aux, hover] using h
    · simp only [play_game_aux, hover, Bool.false_eq_true, if_false]
      exact ih (n + 1) _ (play_one_move_replay_invariant E agent st h)

/-- Claim C7: for every run of `play_game` from a fresh game, replaying the
recorded move history from the initial position through the rules engine
reproduces the final board, and hence the final position snapshot (same
serialization, flags, counters, and active color). -/
theorem play_game_round_trip {Pos : Type} (E : Engine Pos)
    (agent : ChessPosition → Nat → AgentResult) (max_moves : Nat) :
    (play_game E agent max_moves (initState E)).2.board =
      replay E (play_game E agent max_moves (initState E)).2.move_history ∧
    get_current_position E (play_game E agent max_moves (initState E)).2 =
      get_current_position E
        { (play_game E agent max_moves (initState E)).2 with
          board := replay E
            (play_game E agent max_moves (initState E)).2.move_history } := by
  have h : (play_game E agent max_moves (initState E)).2.board =
      replay E (play_game E agent max_moves (initState E)).2.move_history :=
    play_game_aux_replay_invariant E agent max_moves 0 (initState E) rfl
  refine ⟨h, ?_⟩
  congr 1
  rw [← h]

/-! ## Game record structure (claim C8) -/

/-- All entries of a record except possibly the last are per-turn entries
(a game-over entry occurs only in terminal position). -/
def perTurnThenResult : List RecordEntry → Bool
  | [] => true
  | [_] => true
  | e :: e2 :: rest => !e.isGameOverEntry && perTurnThenResult (e2 :: rest)

/-- Prepending a per-turn entry preserves `perTurnThenResult`. -/
lemma perTurnThenResult_cons_turn (a : Nat) (mv rs : Option String)
    (pos : ChessPosition) (msg : String) (l : List RecordEntry) :
    perTurnThenResult (.turn a mv rs pos msg :: l) = perTurnThenResult l := by
  cases l with
  | nil => rfl
  | cons x xs => simp [perTurnThenResult, RecordEntry.isGameOverEntry]

/-- Claim C8 (amended): the record built by `play_game` has at most
`max_turns` entries, every entry but possibly the last is a per-turn entry,
and whenever an iteration starts on a game-over position (the bound not yet
exhausted) the loop stops immediately with the single final-result entry.
The terminator is appended only when the game-over position is detected at
the start of an iteration: a game that first becomes over on the last
permitted iteration ends the record with that turn's entry and no
terminator. -/
theorem play_game_record_structure {Pos : Type} (E : Engine Pos)
    (agent : ChessPosition → Nat → AgentResult) :
    ∀ fuel n st,
      (play_game_aux E agent fuel n st).1.length ≤ fuel ∧
      perTurnThenResult (play_game_aux E agent fuel n st).1 = true ∧
      (E.is_game_over st.board = true → 0 < fuel →
        (play_game_aux E agent fuel n st).1 =
          [.game_over (get_game_result E st.board)]) := by
  intro fuel
  induction fuel with
  | zero =>
    intro n st
    refine ⟨by simp [play_game_aux], by simp [play_game_aux, perTurnThenResult], ?_⟩
    intro _ h
    exact absurd h (by omega)
  | succ k ih =>
    intro n st
    rcases Bool.eq_false_or_eq_true (E.is_game_over st.board) with hover | hover
    · refine ⟨?_, ?_, ?_⟩
      · simp [play_game_aux, hover]
      · simp [play_game_aux, hover, perTurnThenResult]
      · intro _ _
        simp [play_game_aux, hover]
    · have hrec := ih (n + 1) (play_one_move E agent st).2.2
      refine ⟨?_, ?_, ?_⟩
      · simp only [play_game_aux, hover, Bool.false_eq_true, if_false]
        simpa using Nat.succ_le_succ hrec.1
      · simp only [play_game_aux, hover, Bool.false_eq_true, if_false]
        rw [perTurnThenResult_cons_turn]
        exact hrec.2.1
      · intro hc _
        exact absurd hc (by simp [hover])

/-- A game whose initial position is checkmate with black to move. -/
def cmState : GameState FlagPos :=
  { board := { checkmate := true, stalemate := false, insufficient := false
               fifty := false, repetition := false, whiteTurn := false }
    move_history := [], usage := 0, last_move_reasoning := "" }

/-- Witness for C8 (amended): starting on a game-over board with two
iterations allowed, the record is exactly the single final-result entry, and
its length is within the bound. -/
theorem play_game_record_structure_witness :
    (play_game_aux flagEngine (constAgent "e2e4") 2 0 cmState).1 =
      [.game_over (get_game_result flagEngine cmState.board)] ∧
    (play_game_aux flagEngine (constAgent "e2e4") 2 0 cmState).1.length ≤ 2 :=
  have h := play_game_record_structure flagEngine (constAgent "e2e4") 2 0 cmState
  ⟨h.2.2 (by decide) (by decide), h.1⟩

/-- A one-turn run in which the single committed move ends the game. -/
def oneMoveRun : List RecordEntry × GameState (List String) :=
  play_game (listEngine ["a2a3"] 1) (constAgent "a2a3") 1
    (initState (listEngine ["a2a3"] 1))

/-- Counterexample for C8 as stated: in a `play_game(max_turns = 1)` run the
committed move makes the final position game over, yet the returned record is
the single per-turn entry with no final game-over entry — the terminator is
missed when the game first becomes over on the last permitted iteration. -/
theorem play_game_record_structure_counterexample :
    (listEngine ["a2a3"] 1).is_game_over oneMoveRun.2.board = true ∧
    oneMoveRun.1.length = 1 ∧
    oneMoveRun.1.all (fun e => !e.isGameOverEntry) = true ∧
    (oneMoveRun.1.get? 0).bind RecordEntry.move? = some "a2a3" := by
  refine ⟨by decide, by decide, by decide, by decide⟩

/-! ## Opening scenario (claim C9) -/

/-- The legal actions of the chess starting position in UCI notation. -/
def startLegalMoves : List String :=
  ["a2a3", "a2a4", "b2b3", "b2b4", "c2c3", "c2c4", "d2d3", "d2d4",
   "e2e3", "e2e4", "f2f3", "f2f4", "g2g3", "g2g4", "h2h3", "h2h4",
   "b1a3", "b1c3", "g1f3", "g1h3"]

/-- The squares holding pawns in the starting position; every legal starting
move from one of these squares is a pawn advance. -/
def pawnStartSquares : List String :=
  ["a2", "b2", "c2", "d2", "e2", "f2", "g2", "h2",
   "a7", "b7", "c7", "d7", "e7", "f7", "g7", "h7"]

/-- A position reached from the chess starting position, carrying the played
moves and the turn counters. -/
structure StartPos where
  played : List String
  halfmove : Nat
  fullmove : Nat
  whiteToMove : Bool
deriving Repr, DecidableEq

/-- Modelled from the spec: the rules engine (python-chess, external to src/)
as consulted from the chess starting position.  The spec fixes the counter
semantics — the half-move clock resets on a capture or pawn advance and the
full-move number increments after SIDE_B's action (spec section 3) — and the
opening scenario states that "e2e4" is verbatim in the starting legal set
(spec section 8).  From the starting position every move whose source square
holds a pawn is a pawn advance and no capture is possible, so the clock
resets exactly on moves leaving `pawnStartSquares`.  The model is only
consulted for the first move in the theorems below. -/
def startEngine : Engine StartPos :=
  { init := { played := [], halfmove := 0, fullmove := 1, whiteToMove := true }
    fen := fun p => String.intercalate " " p.played
    legal_moves := fun p => if p.played = [] then startLegalMoves else []
    is_check := fun _ => false
    is_checkmate := fun _ => false
    is_stalemate := fun _ => false
    is_game_over := fun _ => false
    is_insufficient_material := fun _ => false
    is_fifty_moves := fun _ => false
    is_repetition := fun _ => false
    halfmove_clock := fun p => p.halfmove
    fullmove_number := fun p => p.fullmove
    turn := fun p => p.whiteToMove
    push := fun p m =>
      { played := p.played ++ [m]
        halfmove := if m.take 2 ∈ pawnStartSquares then 0 else p.halfmove + 1
        fullmove := if p.whiteToMove then p.fullmove else p.fullmove + 1
        whiteToMove := !p.whiteToMove } }

/-- The one-turn opening run in which white plays "e2e4". -/
def openingRun : List RecordEntry × GameState StartPos :=
  play_game startEngine (constAgent "e2e4") 1 (initState startEngine)

/-- Claim C9 (amended): from the starting position, white's submission of the
legal action "e2e4" (verbatim in the legal set) is accepted: record entry 1
has action "e2e4", the active side becomes black, the full-move number is
unchanged at 1, and the half-move clock is reset by the pawn advance — it was
0 and remains 0 rather than being incremented. -/
theorem opening_move_scenario :
    (openingRun.1.get? 0).bind RecordEntry.move? = some "e2e4" ∧
    openingRun.2.move_history = ["e2e4"] ∧
    ((openingRun.1.get? 0).bind RecordEntry.position?).map
      ChessPosition.active_color = some "black" ∧
    ((openingRun.1.get? 0).bind RecordEntry.position?).map
      ChessPosition.fullmove_number = some 1 ∧
    startEngine.fullmove_number (initState startEngine).board = 1 ∧
    ((openingRun.1.get? 0).bind RecordEntry.position?).map
      ChessPosition.half_move_clock = some 0 ∧
    startEngine.halfmove_clock (initState startEngine).board = 0 := by
  refine ⟨by decide, by decide, by decide, by decide, by decide, by decide,
    by decide⟩

/-- Counterexample for C9 as stated: after the accepted "e2e4" the recorded
half-move clock is 0, equal to its value before the move (a pawn advance
resets the clock), and is not the incremented value the claim asserts. -/
theorem opening_move_counterexample :
    ((openingRun.1.get? 0).bind RecordEntry.position?).map
      ChessPosition.half_move_clock = some 0 ∧
    startEngine.halfmove_clock (initState startEngine).board = 0 ∧
    ¬ ((openingRun.1.get? 0).bind RecordEntry.position?).map
        ChessPosition.half_move_clock =
      some (startEngine.halfmove_clock (initState startEngine).board + 1) := by
  refine ⟨by decide, by decide, by decide⟩
